import Mathlib

/-!
Shallow embedding of the grash static-site generator (src/grash/grash.py,
src/grash/watcher.py, src/grash/config.py) and verification of the
specification's claims about its path classifier, build pipeline and
incremental-rebuild logic.

Paths are Python strings; `os.path` / `pathlib` operations used by the source
are embedded as pure string functions below, and all filesystem and
external-collaborator effects (jinja2, pypandoc, the OS) are made explicit:
the build functions return the list of effect events they would perform,
together with the error message of the exception that aborts them, if any.
-/

namespace Grash

/-- Python `s.startswith(pre)`. -/
def pyStartswith (s pre : String) : Bool := pre.data.isPrefixOf s.data

/-- Split a character list on a separator character, Python style: the
result always has one more group than there are separators, so
`"" ↦ [""]` and `"a//b" ↦ ["a", "", "b"]`. -/
def splitChars (sep : Char) : List Char → List (List Char)
  | [] => [[]]
  | c :: cs =>
    if c = sep then [] :: splitChars sep cs
    else
      match splitChars sep cs with
      | [] => [[c]]
      | g :: gs => (c :: g) :: gs

/-- Python `path.split(os.path.sep)` with the POSIX separator `"/"`
(Python's explicit-separator split semantics: `"a//b" ↦ ["a", "", "b"]`,
`"" ↦ [""]`). -/
def pySplit (p : String) : List String :=
  (splitChars '/' p.data).map (fun cs => String.mk cs)

/-- Python `os.path.join(a, b)` for POSIX paths: if `b` is absolute the
result is `b`; otherwise `a` and `b` are glued with a single `"/"` unless
`a` is empty or already ends with the separator. -/
def pyJoin (a b : String) : String :=
  if pyStartswith b "/" then b
  else if a = "" then b
  else if ['/'].isSuffixOf a.data then a ++ b
  else a ++ "/" ++ b

/-- Python `os.path.basename(p)`: the part after the last `"/"` (empty when
`p` ends with the separator). -/
def pyBasename (p : String) : String := ((pySplit p).reverse).headD ""

/-- Python `os.path.dirname(p)`: everything before the last `"/"`, with
trailing separators stripped unless the head consists of separators only
(mirrors `posixpath.dirname`). -/
def pyDirname (p : String) : String :=
  let rev := p.data.reverse
  let base := rev.takeWhile (fun c => c ≠ '/')
  if base.length = p.data.length then ""
  else
    let headRev := rev.drop base.length
    if headRev.all (fun c => c = '/') then ⟨headRev.reverse⟩
    else ⟨(headRev.dropWhile (fun c => c = '/')).reverse⟩

/-- `pathlib.PurePath(n).with_suffix('').name` for a bare file name `n`:
drops the final extension; a name without a dot, a name whose only dot is
its first character (hidden file), and a name ending in a dot are returned
unchanged, exactly as `pathlib` computes the suffix. -/
def pyStem (n : String) : String :=
  let rev := n.data.reverse
  let kept := rev.takeWhile (fun c => c ≠ '.')
  if kept.length = n.data.length then n
  else if kept.length = 0 then n
  else
    let rest := rev.drop (kept.length + 1)
    if rest = [] then n else ⟨rest.reverse⟩

/-- The configuration a `GrashSite` instance is constructed with
(grash.py lines 70-98): the fields read by the classifier and the build. -/
structure Config where
  encoding : String
  templatePath : String
  buildDir : String
  staticDirs : List String
  pandocDirs : List String
  pandocTypes : List String
deriving DecidableEq

/-- `GrashSite.isStatic` (grash.py lines 188-208).  The Python `for` loop
returns inside its first iteration in both branches (`return True` /
`return False`), so only the first configured directory is ever examined,
and the test performed is `dirpath.startswith(dirname)` — the configured
directory is tested for having the queried path as a prefix. -/
def isStatic (cfg : Config) (dirname : String) : Bool :=
  match cfg.staticDirs with
  | [] => false
  | dirpath :: _ => pyStartswith dirpath dirname

/-- `GrashSite.isPandoc` (grash.py lines 210-228): same structure as
`isStatic`, over `pandocDirs`. -/
def isPandoc (cfg : Config) (dirname : String) : Bool :=
  match cfg.pandocDirs with
  | [] => false
  | dirpath :: _ => pyStartswith dirpath dirname

/-- `GrashSite.isModule` (grash.py lines 230-247): some
`os.path.sep`-separated segment starts with `"_"`. -/
def isModule (path : String) : Bool :=
  (pySplit path).any (fun route => pyStartswith route "_")

/-- `GrashSite.isPrivate` (grash.py lines 249-266): some segment starts
with `"."`. -/
def isPrivate (path : String) : Bool :=
  (pySplit path).any (fun route => pyStartswith route ".")

/-- `GrashSite.isTemplate` (grash.py lines 268-287): a path is a page
template iff none of `isModule`, `isPrivate`, `isStatic`, `isPandoc` hold,
tested in that order. -/
def isTemplate (cfg : Config) (path : String) : Bool :=
  if isModule path || isPrivate path || isStatic cfg path || isPandoc cfg path
  then false else true

/-- The five categories of the specification's data model. -/
inductive Category where
  | Module | Private | Static | Document | Page
deriving DecidableEq

/-- The specification's ordered classifier, assembled from the source
predicates in the order in which `isTemplate` consults them
(Module, then Private, then Static, then Document, else Page). -/
def classify (cfg : Config) (path : String) : Category :=
  if isModule path then Category.Module
  else if isPrivate path then Category.Private
  else if isStatic cfg path then Category.Static
  else if isPandoc cfg path then Category.Document
  else Category.Page

/-- The containment predicate in the specification's words (spec §4.1): the
path lies under one of the configured prefixes, i.e. starts with it; every
configured prefix is tested.  Stated only to be compared with the source's
`isStatic` / `isPandoc`. -/
def underSomeDir (dirs : List String) (path : String) : Bool :=
  dirs.any (fun d => pyStartswith path d)

/-- One effect the build performs on the world, with the source operation it
embeds: `mkdir` is `pathlib.Path(...).mkdir(parents=True, exist_ok=True)`,
`write` is the plain `open(..., 'w')`/`write` used by `renderDoc`, `dump` is
`template.stream().dump(...)` used by `renderTemplate`, and `copy` is
`shutil.copy2` used by `copyStatic`. -/
inductive Ev where
  | mkdir (path : String)
  | write (path : String) (content : String)
  | dump (path : String) (content : String)
  | copy (src : String) (dest : String)
deriving DecidableEq

/-- The path an event touches (its destination, for a copy). -/
def evPath : Ev → String
  | Ev.mkdir p => p
  | Ev.write p _ => p
  | Ev.dump p _ => p
  | Ev.copy _ d => d

def evIsWrite : Ev → Bool
  | Ev.write _ _ => true
  | _ => false

def evIsDump : Ev → Bool
  | Ev.dump _ _ => true
  | _ => false

def evIsCopy : Ev → Bool
  | Ev.copy _ _ => true
  | _ => false

/-- The filesystem snapshot a build observes: file contents by path, the
`pathlib.Path(dir).glob('*.' + ext)` listing (file names found in `dir`
carrying extension `ext`), the relative names the jinja2 `FileSystemLoader`
enumerates under the template root (`Environment.list_templates`),
`os.path.isfile`, and `os.getcwd()`. -/
structure Fs where
  text : String → String
  docFiles : String → String → List String
  templateList : List String
  isfile : String → Bool
  cwd : String

/-- The two external collaborators: `pypandoc.convert(text, "html",
format=docType)`, and jinja2 rendering of a named template, a function of
the observed file contents and the template name. -/
structure Ext where
  pandoc : String → String → String
  jinjaRender : (String → String) → String → String

/-- `GrashSite.templateNames` / `templates` (grash.py lines 122-142):
`list_templates(filter_func=self.isTemplate)`. -/
def templates (cfg : Config) (fs : Fs) : List String :=
  fs.templateList.filter (fun n => isTemplate cfg n)

/-- `GrashSite.staticFiles` (grash.py lines 144-154):
`list_templates(filter_func=self.isStatic)`. -/
def staticFiles (cfg : Config) (fs : Fs) : List String :=
  fs.templateList.filter (fun n => isStatic cfg n)

/-- Line 181 of grash.py tests `self.isPandoc` — the bound-method object
itself, not a call of it — and a bound method is always truthy in Python,
so the branch guard behaves as `self.isStatic(filename) or True`. -/
def isPandocAttrTruthy : Bool := true

/-- A dependency returned by `GrashSite.getDependencies`: either a jinja2
template object obtained by name, or a raw file name. -/
inductive Dep where
  | tmpl (name : String)
  | file (name : String)
deriving DecidableEq

/-- `GrashSite.getDependencies` (grash.py lines 167-184). -/
def getDependencies (cfg : Config) (fs : Fs) (filename : String) : List Dep :=
  if isModule filename then (templates cfg fs).map Dep.tmpl
  else if isTemplate cfg filename then [Dep.tmpl filename]
  else if isStatic cfg filename || isPandocAttrTruthy then [Dep.file filename]
  else []

/-- `GrashSite._platify` (grash.py lines 313-330). -/
def platify (s template : String) : String :=
  let pre := "\x7b% extends \"" ++ template ++ "\" %\x7d\n\x7b% block body %\x7d"
  let suf := "\x7b% endblock %\x7d"
  pre ++ "\n" ++ s ++ "\n" ++ suf

/-- `GrashSite._ensureParent` (grash.py lines 103-118): create the parent of
`filename` below the build directory when `filename` has one. -/
def ensureParent (cfg : Config) (filename : String) : List Ev :=
  let parent := pyDirname filename
  if parent = "" then [] else [Ev.mkdir (pyJoin cfg.buildDir parent)]

/-- `GrashSite.renderDoc` (grash.py lines 332-377).  Returns the events
performed and, when the `assert os.path.isfile(templatePath)` guarding the
document directory's module template fails, the `AssertionError` message —
raised before any file of the directory is processed. -/
def renderDoc (cfg : Config) (ext : Ext) (fs : Fs) (docType path : String)
    (prettyLink : Bool) : List Ev × Option String :=
  let source := pyJoin fs.cwd path
  let destination := pyJoin cfg.templatePath path
  let docfilepaths := fs.docFiles source docType
  let docTemplate := "_" ++ pyBasename path ++ ".html"
  let tPath := pyJoin cfg.templatePath docTemplate
  if fs.isfile tPath then
    (docfilepaths.flatMap (fun f =>
      let htmltext := platify (ext.pandoc docType (fs.text (pyJoin source f)))
        docTemplate
      if prettyLink then
        let pagedir := pyJoin destination (pyStem f)
        [Ev.mkdir pagedir, Ev.write (pyJoin pagedir "index.html") htmltext]
      else
        [Ev.write (pyJoin destination f) htmltext]), none)
  else
    ([], some ("No template " ++ tPath ++ " has been found, aborting."))

/-- `GrashSite.renderDocs` (grash.py lines 379-401).  Line 401 passes the
literal `prettyLink=True` to `renderDoc`, not its own `prettyLink`
argument, so that argument is ignored.  An `AssertionError` raised by
`renderDoc` propagates, skipping the remaining directories; events of the
directories already processed remain committed. -/
def renderDocs (cfg : Config) (ext : Ext) (fs : Fs) (docType : String)
    (dirpaths : List String) (prettyLink : Bool) : List Ev × Option String :=
  match dirpaths with
  | [] => ([], none)
  | d :: ds =>
    let r := renderDoc cfg ext fs docType d true
    if r.2.isSome then r
    else
      let rest := renderDocs cfg ext fs docType ds prettyLink
      (r.1 ++ rest.1, rest.2)

/-- The `for docType in self.pandocTypes: self.renderDocs(docType,
self.pandocDirs, prettyLink)` loop of `GrashSite.render` (grash.py line
447-448), with exception propagation. -/
def docStage (cfg : Config) (ext : Ext) (fs : Fs) (types : List String)
    (prettyLink : Bool) : List Ev × Option String :=
  match types with
  | [] => ([], none)
  | t :: ts =>
    let r := renderDocs cfg ext fs t cfg.pandocDirs prettyLink
    if r.2.isSome then r
    else
      let rest := docStage cfg ext fs ts prettyLink
      (r.1 ++ rest.1, rest.2)

/-- `GrashSite.renderTemplate` (grash.py lines 405-419). -/
def renderTemplate (cfg : Config) (ext : Ext) (fs : Fs) (name : String) :
    List Ev :=
  ensureParent cfg name ++
    [Ev.dump (pyJoin cfg.buildDir name) (ext.jinjaRender fs.text name)]

/-- `GrashSite.renderTemplates` (grash.py lines 421-434). -/
def renderTemplates (cfg : Config) (ext : Ext) (fs : Fs)
    (names : List String) : List Ev :=
  names.flatMap (renderTemplate cfg ext fs)

/-- `GrashSite.copyStatic` (grash.py lines 291-309).  The loop body's second
statement reads `self.buildPath`, an attribute that is never assigned (the
constructor stores the build directory in `self.buildDir`), so the first
iteration raises `AttributeError` before printing, creating a directory or
copying anything; with an empty path list the loop body never runs and the
call succeeds. -/
def copyStatic (_cfg : Config) (_fs : Fs) (paths : List String) :
    List Ev × Option String :=
  match paths with
  | [] => ([], none)
  | _ :: _ =>
    ([], some "AttributeError: GrashSite object has no attribute buildPath")

/-- `GrashSite.render` (grash.py lines 436-456), the full build: create the
build directory, run the document stage, render the page templates, copy the
static files; an exception in an earlier stage skips the later ones.
(The `reloader` branch only starts the watcher and performs no build
effect.) -/
def render (cfg : Config) (ext : Ext) (fs : Fs) (prettyLink : Bool) :
    List Ev × Option String :=
  let m := Ev.mkdir cfg.buildDir
  let d := docStage cfg ext fs cfg.pandocTypes prettyLink
  if d.2.isSome then (m :: d.1, d.2)
  else
    let pageEvs := renderTemplates cfg ext fs (templates cfg fs)
    let s := copyStatic cfg fs (staticFiles cfg fs)
    (m :: (d.1 ++ pageEvs ++ s.1), s.2)

/-- Does an event write a file lying under the directory `tp`?  Used to
express that a build leaves the source/template tree untouched. -/
def evWriteUnder (tp : String) : Ev → Bool
  | Ev.mkdir _ => false
  | Ev.write p _ => pyStartswith p (tp ++ "/")
  | Ev.dump p _ => pyStartswith p (tp ++ "/")
  | Ev.copy _ d => pyStartswith d (tp ++ "/")

/-- How a file created at `p` extends the jinja loader's enumeration: a file
under the template root becomes listed under its relative name. -/
def addTemplateName (cfg : Config) (list : List String) (p : String) :
    List String :=
  if pyStartswith p (cfg.templatePath ++ "/") then
    let rel : String := ⟨p.data.drop (cfg.templatePath ++ "/").data.length⟩
    if rel ∈ list then list else list ++ [rel]
  else list

/-- The filesystem after one build event: writes, dumps and copies replace
the destination's contents, make it an existing file, and extend the
template enumeration when the destination falls under the template root;
directory creation changes none of the observed quantities.  The glob
listings and the working directory are carried over unchanged: the builds
to which this update is applied below have no document directories, so
those listings are never consulted. -/
def applyEv (cfg : Config) (fs : Fs) : Ev → Fs
  | Ev.mkdir _ => fs
  | Ev.write p c =>
    { fs with
      text := fun q => if q = p then c else fs.text q
      isfile := fun q => if q = p then true else fs.isfile q
      templateList := addTemplateName cfg fs.templateList p }
  | Ev.dump p c =>
    { fs with
      text := fun q => if q = p then c else fs.text q
      isfile := fun q => if q = p then true else fs.isfile q
      templateList := addTemplateName cfg fs.templateList p }
  | Ev.copy s d =>
    { fs with
      text := fun q => if q = d then fs.text s else fs.text q
      isfile := fun q => if q = d then true else fs.isfile q
      templateList := addTemplateName cfg fs.templateList d }

/-- The filesystem after a whole build trace. -/
def applyTrace (cfg : Config) (fs : Fs) (tr : List Ev) : Fs :=
  tr.foldl (fun acc e => applyEv cfg acc e) fs

/-- A configuration with the repository's default roots and no static or
document directories. -/
def cfg0 : Config := ⟨"utf8", "templates", "build", [], [], ["org"]⟩

/-- The default roots with one document directory `posts`. -/
def cfgDoc : Config := ⟨"utf8", "templates", "build", [], ["posts"], ["org"]⟩

/-- A minimal filesystem snapshot: one page template, no document files, no
file reported existing. -/
def fs0 : Fs := ⟨fun _ => "", fun _ _ => [], ["index.html"], fun _ => false, "/proj"⟩

/-- A snapshot whose `posts` directory holds one org document and whose
template root holds the module template `_posts.html` plus one page. -/
def fsDoc : Fs :=
  ⟨fun _ => "hi",
   fun d t => if d = "/proj/posts" then if t = "org" then ["hello.org"] else [] else [],
   ["index.html"],
   fun q => q == "templates/_posts.html",
   "/proj"⟩

/-- Deterministic external collaborators: the converter returns its input,
the template engine renders a template to the template's own name. -/
def ext0 : Ext := ⟨fun _ s => s, fun _ n => n⟩

end Grash

section Evaluation
open Grash

example : pyJoin "templates" "_posts.html" = "templates/_posts.html" := by decide
example : pyBasename "a/b/posts" = "posts" := by decide
example : pyDirname "a/b/c.html" = "a/b" := by decide
example : pyDirname "c.html" = "" := by decide
example : pyStem "hello.org" = "hello" := by decide
example : pyStem ".env" = ".env" := by decide
example : pyStem "a.b.c" = "a.b" := by decide
example : isModule "_a/.b" = true := by decide
example : isPrivate "_a/.b" = true := by decide
example : isStatic ⟨"utf8", "t", "b", ["assets"], [], []⟩ "assets/css/site.css" = false := by decide
example : isStatic ⟨"utf8", "t", "b", ["a"], [], []⟩ "" = true := by decide

example :
    render cfgDoc ext0 fsDoc true =
      ([Ev.mkdir "build", Ev.mkdir "templates/posts/hello",
        Ev.write "templates/posts/hello/index.html" (platify "hi" "_posts.html"),
        Ev.dump "build/index.html" "index.html"], none) := by decide

example :
    render cfg0 ext0 fs0 true =
      ([Ev.mkdir "build", Ev.dump "build/index.html" "index.html"], none) := by
  decide

example : getDependencies cfgDoc fs0 ".env" = [Dep.file ".env"] := by decide

end Evaluation

namespace Grash

/-- C1.  The source's containment test is inverted and short-circuited:
with `staticDirs = ["assets"]` the path `assets/css/site.css` lies under the
configured prefix (the spec's `underSomeDir` is true) yet `isStatic` is
false, because line 205 tests `dirpath.startswith(dirname)` — whether the
configured directory starts with the queried path; and with
`staticDirs = ["css", "js"]` the path `js/app.js` under the second prefix is
rejected, because the loop returns `False` from the first iteration, so only
the first configured prefix is ever tested.  `isPandoc` (lines 220-228) has
the identical structure and the identical divergence. -/
theorem isStatic_containment_inverted :
    isStatic ⟨"utf8", "templates", "build", ["assets"], [], ["org"]⟩
      "assets/css/site.css" = false ∧
    underSomeDir ["assets"] "assets/css/site.css" = true ∧
    isStatic ⟨"utf8", "templates", "build", ["css", "js"], [], ["org"]⟩
      "js/app.js" = false ∧
    underSomeDir ["css", "js"] "js/app.js" = true ∧
    isPandoc cfgDoc "posts/hello.org" = false ∧
    underSomeDir ["posts"] "posts/hello.org" = true := by decide

/-- C2.  For the private path `.env` (neither a module, nor a page, nor
static, nor a document) the claim expects the empty dependency set, but
`getDependencies` returns the singleton `[.env]`: the guard of its third
branch (line 181) reads `self.isStatic(filename) or self.isPandoc` — the
bound method `self.isPandoc` is truthy — so the `else: return []` branch is
unreachable. -/
theorem getDependencies_private_not_empty :
    getDependencies cfgDoc fs0 ".env" = [Dep.file ".env"] ∧
    isModule ".env" = false ∧
    isPrivate ".env" = true ∧
    isTemplate cfgDoc ".env" = false ∧
    isStatic cfgDoc ".env" = false ∧
    isPandoc cfgDoc ".env" = false := by decide

/-- C3, counterexample.  The path `_partials/.cache` has a segment starting
with `.`, so `isPrivate` holds — yet it is classified `Module`, not
excluded from the Module category: `isModule` is consulted before
`isPrivate` everywhere in the source (`isTemplate` line 283,
`getDependencies` line 177). -/
theorem private_dot_underscore_is_module :
    isPrivate "_partials/.cache" = true ∧
    classify cfg0 "_partials/.cache" = Category.Module := by decide

/-- C3, amended.  A path with a `.`-segment satisfies `isPrivate` and is
classified into none of Page, Static, Document; it is classified `Module`
exactly when it also has a `_`-segment (Module precedes Private in the
evaluation order), and `Private` otherwise. -/
theorem private_excluded_amended (cfg : Config) (p : String)
    (h : ∃ s ∈ pySplit p, pyStartswith s "." = true) :
    isPrivate p = true ∧
    classify cfg p ≠ Category.Page ∧
    classify cfg p ≠ Category.Static ∧
    classify cfg p ≠ Category.Document ∧
    (classify cfg p = Category.Module ↔ isModule p = true) := by
  have hp : isPrivate p = true := by
    unfold isPrivate
    rw [List.any_eq_true]
    obtain ⟨s, hs, hw⟩ := h
    exact ⟨s, hs, hw⟩
  refine ⟨hp, ?_⟩
  by_cases hm : isModule p = true
  · simp [classify, hm]
  · rw [Bool.not_eq_true] at hm
    simp [classify, hm, hp]

/-- Witness for the amended C3 at the concrete private path `.git/config`
and the default configuration. -/
theorem private_excluded_amended_witness :
    (∃ s ∈ pySplit ".git/config", pyStartswith s "." = true) ∧
    (isPrivate ".git/config" = true ∧
     classify cfg0 ".git/config" ≠ Category.Page ∧
     classify cfg0 ".git/config" ≠ Category.Static ∧
     classify cfg0 ".git/config" ≠ Category.Document ∧
     (classify cfg0 ".git/config" = Category.Module ↔
       isModule ".git/config" = true)) :=
  ⟨by decide, private_excluded_amended cfg0 ".git/config" (by decide)⟩

/-- C4.  For every configuration and path, the ordered classifier assigns
exactly one category, characterized by the source predicates consulted in
the order of `isTemplate` (grash.py lines 283-287): `Module` first, then
`Private`, then `Static`, then `Document`, with first match winning, and
`Page` exactly on the paths `isTemplate` accepts. -/
theorem classify_partition (cfg : Config) (p : String) :
    (classify cfg p = Category.Module ↔ isModule p = true) ∧
    (classify cfg p = Category.Private ↔
      (isModule p = false ∧ isPrivate p = true)) ∧
    (classify cfg p = Category.Static ↔
      (isModule p = false ∧ isPrivate p = false ∧ isStatic cfg p = true)) ∧
    (classify cfg p = Category.Document ↔
      (isModule p = false ∧ isPrivate p = false ∧ isStatic cfg p = false ∧
        isPandoc cfg p = true)) ∧
    (classify cfg p = Category.Page ↔ isTemplate cfg p = true) := by
  cases h1 : isModule p <;> cases h2 : isPrivate p <;>
    cases h3 : isStatic cfg p <;> cases h4 : isPandoc cfg p <;>
    simp [classify, isTemplate, h1, h2, h3, h4]

/-- C5.  A path with a `_`-segment is a module and is never a page,
whatever the configuration: `isTemplate` rejects every path accepted by
`isModule`. -/
theorem module_never_page (cfg : Config) (p : String)
    (h : ∃ s ∈ pySplit p, pyStartswith s "_" = true) :
    isModule p = true ∧ isTemplate cfg p = false := by
  have hm : isModule p = true := by
    unfold isModule
    rw [List.any_eq_true]
    obtain ⟨s, hs, hw⟩ := h
    exact ⟨s, hs, hw⟩
  exact ⟨hm, by simp [isTemplate, hm]⟩

/-- Witness for C5 at the module path `_base.html` and the default
configuration. -/
theorem module_never_page_witness :
    (∃ s ∈ pySplit "_base.html", pyStartswith s "_" = true) ∧
    (isModule "_base.html" = true ∧ isTemplate cfg0 "_base.html" = false) :=
  ⟨by decide, module_never_page cfg0 "_base.html" (by decide)⟩

/-- C7.  When the module template `_<basename(path)>.html` required by a
document directory does not exist under the template root, `renderDoc`
aborts — performing no event at all for that directory — with the
`AssertionError` diagnostic naming the missing template path. -/
theorem renderDoc_missing_template_aborts (cfg : Config) (ext : Ext)
    (fs : Fs) (docType path : String) (pl : Bool)
    (h : fs.isfile
      (pyJoin cfg.templatePath ("_" ++ pyBasename path ++ ".html")) = false) :
    renderDoc cfg ext fs docType path pl =
      ([], some ("No template " ++
        pyJoin cfg.templatePath ("_" ++ pyBasename path ++ ".html") ++
        " has been found, aborting.")) := by
  unfold renderDoc
  simp [h]

/-- Every event `renderDoc` performs concerns one globbed document file `f`
of the directory: it is the pretty-link page-directory creation, the
pretty-link `index.html` write, or the flat `<f>` write, all below
`templatePath/<path>`, carrying the converted text wrapped for the
directory's module template. -/
theorem renderDoc_event_shape (cfg : Config) (ext : Ext) (fs : Fs)
    (t path : String) (pl : Bool) (e : Ev)
    (he : e ∈ (renderDoc cfg ext fs t path pl).1) :
    ∃ f ∈ fs.docFiles (pyJoin fs.cwd path) t,
      e = Ev.mkdir (pyJoin (pyJoin cfg.templatePath path) (pyStem f)) ∨
      e = Ev.write
            (pyJoin (pyJoin (pyJoin cfg.templatePath path) (pyStem f))
              "index.html")
            (platify (ext.pandoc t (fs.text (pyJoin (pyJoin fs.cwd path) f)))
              ("_" ++ pyBasename path ++ ".html")) ∨
      e = Ev.write (pyJoin (pyJoin cfg.templatePath path) f)
            (platify (ext.pandoc t (fs.text (pyJoin (pyJoin fs.cwd path) f)))
              ("_" ++ pyBasename path ++ ".html")) := by
  simp only [renderDoc] at he
  cases hf : fs.isfile (pyJoin cfg.templatePath ("_" ++ pyBasename path ++ ".html")) with
  | false => simp [hf] at he
  | true =>
    simp only [hf, if_true] at he
    rw [List.mem_flatMap] at he
    obtain ⟨f, hfm, he⟩ := he
    refine ⟨f, hfm, ?_⟩
    cases pl with
    | true => simp at he; rcases he with he | he
              · exact Or.inl he
              · exact Or.inr (Or.inl he)
    | false => simp at he; exact Or.inr (Or.inr he)

/-- `renderDoc` performs only directory creations and plain writes. -/
theorem renderDoc_no_dump_no_copy (cfg : Config) (ext : Ext) (fs : Fs)
    (t path : String) (pl : Bool) (e : Ev)
    (he : e ∈ (renderDoc cfg ext fs t path pl).1) :
    evIsDump e = false ∧ evIsCopy e = false := by
  obtain ⟨f, _, h⟩ := renderDoc_event_shape cfg ext fs t path pl e he
  rcases h with h | h | h <;> subst h <;> exact ⟨rfl, rfl⟩

/-- `renderDocs` performs only directory creations and plain writes. -/
theorem renderDocs_no_dump_no_copy (cfg : Config) (ext : Ext) (fs : Fs)
    (t : String) (dirs : List String) (pl : Bool) :
    ∀ e ∈ (renderDocs cfg ext fs t dirs pl).1,
      evIsDump e = false ∧ evIsCopy e = false := by
  induction dirs with
  | nil => intro e he; simp [renderDocs] at he
  | cons d ds ih =>
    intro e he
    simp only [renderDocs] at he
    cases h2 : (renderDoc cfg ext fs t d true).2 with
    | some msg =>
      rw [h2] at he
      simp only [Option.isSome_some, if_true] at he
      exact renderDoc_no_dump_no_copy cfg ext fs t d true e he
    | none =>
      rw [h2] at he
      simp only [Option.isSome_none, Bool.false_eq_true, if_false,
        List.mem_append] at he
      rcases he with he | he
      · exact renderDoc_no_dump_no_copy cfg ext fs t d true e he
      · exact ih e he

/-- The whole document stage performs only directory creations and plain
writes. -/
theorem docStage_no_dump_no_copy (cfg : Config) (ext : Ext) (fs : Fs)
    (types : List String) (pl : Bool) :
    ∀ e ∈ (docStage cfg ext fs types pl).1,
      evIsDump e = false ∧ evIsCopy e = false := by
  induction types with
  | nil => intro e he; simp [docStage] at he
  | cons t ts ih =>
    intro e he
    simp only [docStage] at he
    cases h2 : (renderDocs cfg ext fs t cfg.pandocDirs pl).2 with
    | some msg =>
      rw [h2] at he
      simp only [Option.isSome_some, if_true] at he
      exact renderDocs_no_dump_no_copy cfg ext fs t cfg.pandocDirs pl e he
    | none =>
      rw [h2] at he
      simp only [Option.isSome_none, Bool.false_eq_true, if_false,
        List.mem_append] at he
      rcases he with he | he
      · exact renderDocs_no_dump_no_copy cfg ext fs t cfg.pandocDirs pl e he
      · exact ih e he

/-- The page stage performs only directory creations and stream dumps. -/
theorem renderTemplates_no_write_no_copy (cfg : Config) (ext : Ext) (fs : Fs)
    (names : List String) :
    ∀ e ∈ renderTemplates cfg ext fs names,
      evIsWrite e = false ∧ evIsCopy e = false := by
  intro e he
  simp only [renderTemplates] at he
  rw [List.mem_flatMap] at he
  obtain ⟨n, _, he⟩ := he
  simp only [renderTemplate, ensureParent] at he
  by_cases hp : pyDirname n = ""
  · simp [hp] at he
    subst he
    exact ⟨rfl, rfl⟩
  · simp [hp] at he
    rcases he with he | he <;> subst he <;> exact ⟨rfl, rfl⟩

/-- The static stage never records an event: with an empty file list the
loop body does not run, and with a nonempty one the first iteration raises
`AttributeError` before doing anything. -/
theorem copyStatic_events_nil (cfg : Config) (fs : Fs) (paths : List String) :
    (copyStatic cfg fs paths).1 = [] := by
  cases paths <;> rfl

/-- In `m :: (A ++ B)`, an element satisfying `P` sits beyond `A` when
neither `m` nor any element of `A` satisfies `P`. -/
theorem pos_lower_of_head_front_free {α : Type} (m : α) (A B : List α)
    (P : α → Bool) (hm : P m = false) (hA : ∀ e ∈ A, P e = false)
    (k : Nat) (e : α) (hk : (m :: (A ++ B))[k]? = some e)
    (hP : P e = true) : A.length + 1 ≤ k := by
  cases k with
  | zero =>
    rw [List.getElem?_cons_zero] at hk
    have hme : m = e := Option.some.inj hk
    rw [← hme, hm] at hP
    cases hP
  | succ k' =>
    rw [List.getElem?_cons_succ] at hk
    by_cases hlt : k' < A.length
    · rw [List.getElem?_append_left hlt] at hk
      have := hA e (List.getElem?_mem hk)
      rw [this] at hP
      cases hP
    · omega

/-- In `m :: (A ++ B)`, an element satisfying `Q` sits within `A`'s range
when no element of `B` satisfies `Q`. -/
theorem pos_upper_of_back_free {α : Type} (m : α) (A B : List α)
    (Q : α → Bool) (hB : ∀ e ∈ B, Q e = false)
    (k : Nat) (e : α) (hk : (m :: (A ++ B))[k]? = some e)
    (hQ : Q e = true) : k ≤ A.length := by
  cases k with
  | zero => omega
  | succ k' =>
    rw [List.getElem?_cons_succ] at hk
    by_cases hlt : k' < A.length
    · omega
    · rw [List.getElem?_append_right (Nat.le_of_not_lt hlt)] at hk
      have := hB e (List.getElem?_mem hk)
      rw [this] at hQ
      cases hQ

/-- The full-build trace is the build-directory creation followed by the
document-stage events and then the page-stage events (the static stage
records none). -/
theorem render_trace_shape (cfg : Config) (ext : Ext) (fs : Fs) (pl : Bool) :
    ∃ A B, (render cfg ext fs pl).1 = Ev.mkdir cfg.buildDir :: (A ++ B) ∧
      (∀ e ∈ A, evIsDump e = false ∧ evIsCopy e = false) ∧
      (∀ e ∈ B, evIsWrite e = false ∧ evIsCopy e = false) := by
  cases h2 : (docStage cfg ext fs cfg.pandocTypes pl).2 with
  | some msg =>
    refine ⟨(docStage cfg ext fs cfg.pandocTypes pl).1, [], ?_, ?_, ?_⟩
    · simp [render, h2]
    · exact docStage_no_dump_no_copy cfg ext fs cfg.pandocTypes pl
    · simp
  | none =>
    refine ⟨(docStage cfg ext fs cfg.pandocTypes pl).1,
      renderTemplates cfg ext fs (templates cfg fs), ?_, ?_, ?_⟩
    · simp [render, h2, copyStatic_events_nil]
    · exact docStage_no_dump_no_copy cfg ext fs cfg.pandocTypes pl
    · exact renderTemplates_no_write_no_copy cfg ext fs (templates cfg fs)

/-- C6.  In every full build the first event is the (recursive, absent-safe)
creation of the output root, and the stages are ordered: every document
write precedes every page dump, and dumps and writes both precede any
static copy (the static stage, which runs last, in fact records no copy
event — its first iteration dies on the `buildPath` attribute error). -/
theorem render_stage_order (cfg : Config) (ext : Ext) (fs : Fs) (pl : Bool) :
    (render cfg ext fs pl).1.head? = some (Ev.mkdir cfg.buildDir) ∧
    (∀ (i j : Nat) (e1 e2 : Ev),
      (render cfg ext fs pl).1[i]? = some e1 →
      (render cfg ext fs pl).1[j]? = some e2 →
      ((evIsWrite e1 = true ∧ evIsDump e2 = true) ∨
       (evIsWrite e1 = true ∧ evIsCopy e2 = true) ∨
       (evIsDump e1 = true ∧ evIsCopy e2 = true)) →
      i < j) := by
  obtain ⟨A, B, hL, hA, hB⟩ := render_trace_shape cfg ext fs pl
  constructor
  · rw [hL]; rfl
  · intro i j e1 e2 hi hj hcase
    rw [hL] at hi hj
    rcases hcase with ⟨hw, hd⟩ | ⟨hw, hc⟩ | ⟨hd, hc⟩
    · have hup : i ≤ A.length :=
        pos_upper_of_back_free _ A B evIsWrite (fun e he => (hB e he).1)
          i e1 hi hw
      have hlow : A.length + 1 ≤ j :=
        pos_lower_of_head_front_free (Ev.mkdir cfg.buildDir) A B evIsDump rfl
          (fun e he => (hA e he).1) j e2 hj hd
      omega
    · have hnc : evIsCopy e2 = false := by
        have hmem := List.getElem?_mem hj
        rcases List.mem_cons.mp hmem with h | h
        · rw [h]; rfl
        · rcases List.mem_append.mp h with h | h
          · exact (hA e2 h).2
          · exact (hB e2 h).2
      rw [hnc] at hc
      cases hc
    · have hnc : evIsCopy e2 = false := by
        have hmem := List.getElem?_mem hj
        rcases List.mem_cons.mp hmem with h | h
        · rw [h]; rfl
        · rcases List.mem_append.mp h with h | h
          · exact (hA e2 h).2
          · exact (hB e2 h).2
      rw [hnc] at hc
      cases hc

/-- Witness for C6: in the one-document, one-page build of `fsDoc` the
head is the output-root creation, and the document write at position 2
precedes the page dump at position 3. -/
theorem render_stage_order_witness :
    (render cfgDoc ext0 fsDoc true).1.head? = some (Ev.mkdir "build") ∧
    (2 : Nat) < 3 :=
  ⟨(render_stage_order cfgDoc ext0 fsDoc true).1,
   (render_stage_order cfgDoc ext0 fsDoc true).2 2 3
     (Ev.write "templates/posts/hello/index.html" (platify "hi" "_posts.html"))
     (Ev.dump "build/index.html" "index.html")
     (by decide) (by decide) (Or.inl ⟨rfl, rfl⟩)⟩

/-- A list is a prefix of itself followed by anything. -/
theorem isPrefixOf_append_self (l m : List Char) :
    l.isPrefixOf (l ++ m) = true := by
  induction l with
  | nil => simp
  | cons a as ih => simp [List.isPrefixOf_cons₂, ih]

/-- Boolean prefix-of is transitive. -/
theorem isPrefixOf_trans (l1 l2 l3 : List Char)
    (h1 : l1.isPrefixOf l2 = true) (h2 : l2.isPrefixOf l3 = true) :
    l1.isPrefixOf l3 = true := by
  induction l1 generalizing l2 l3 with
  | nil => simp
  | cons a as ih =>
    cases l2 with
    | nil => simp at h1
    | cons b bs =>
      cases l3 with
      | nil => simp at h2
      | cons c cs =>
        rw [List.isPrefixOf_cons₂] at h1 h2 ⊢
        simp only [Bool.and_eq_true] at h1 h2 ⊢
        obtain ⟨hab, h1t⟩ := h1
        obtain ⟨hbc, h2t⟩ := h2
        simp only [beq_iff_eq] at hab hbc
        subst hab
        subst hbc
        exact ⟨by simp, ih bs cs h1t h2t⟩

/-- A string starts with itself followed by anything. -/
theorem pyStartswith_append (a x : String) :
    pyStartswith (a ++ x) a = true := by
  unfold pyStartswith
  rw [String.data_append]
  exact isPrefixOf_append_self a.data x.data

/-- Joining a relative component onto `a` yields a path starting with
`a`. -/
theorem pyStartswith_pyJoin (a b : String)
    (hb : pyStartswith b "/" = false) :
    pyStartswith (pyJoin a b) a = true := by
  unfold pyJoin
  simp only [hb, Bool.false_eq_true, if_false]
  by_cases ha : a = ""
  · subst ha
    simp only [if_true]
    unfold pyStartswith
    simp
  · simp only [ha, if_false]
    by_cases hs : ['/'].isSuffixOf a.data = true
    · rw [if_pos hs]
      exact pyStartswith_append a b
    · rw [if_neg hs]
      unfold pyStartswith
      rw [String.data_append, String.data_append, List.append_assoc]
      exact isPrefixOf_append_self a.data _

/-- Transitivity of `startswith`. -/
theorem pyStartswith_trans (s m a : String)
    (h1 : pyStartswith s m = true) (h2 : pyStartswith m a = true) :
    pyStartswith s a = true :=
  isPrefixOf_trans a.data m.data s.data h2 h1

/-- Taking an initial part of a list cannot create a leading occurrence of
a character absent from the front. -/
theorem singleton_isPrefixOf_take (c : Char) (l : List Char) (k : Nat)
    (h : [c].isPrefixOf l = false) : [c].isPrefixOf (l.take k) = false := by
  cases l with
  | nil => cases k <;> rfl
  | cons a as =>
    cases k with
    | zero => rfl
    | succ k' =>
      rw [List.take_succ_cons]
      rw [List.isPrefixOf_cons₂] at h ⊢
      simp only [List.isPrefixOf_nil_left, Bool.and_true] at h ⊢
      exact h

/-- Dropping the final extension never makes a relative name absolute. -/
theorem pyStem_no_leading_slash (n : String)
    (h : pyStartswith n "/" = false) :
    pyStartswith (pyStem n) "/" = false := by
  unfold pyStem
  by_cases h1 : (n.data.reverse.takeWhile (fun c => c ≠ '.')).length =
      n.data.length
  · simp only [h1, if_true]
    exact h
  · simp only [h1, if_false]
    by_cases h2 : (n.data.reverse.takeWhile (fun c => c ≠ '.')).length = 0
    · simp only [h2, if_true]
      exact h
    · simp only [h2, if_false]
      by_cases h3 : n.data.reverse.drop
          ((n.data.reverse.takeWhile (fun c => c ≠ '.')).length + 1) = []
      · simp only [h3, if_true]
        exact h
      · simp only [h3, if_false]
        unfold pyStartswith at h ⊢
        rw [List.reverse_drop, List.reverse_reverse, List.length_reverse]
        exact singleton_isPrefixOf_take '/' n.data _ h

/-- C10.  Every event of `renderDoc` — and so every file the document stage
writes — lands under the template (source) root: its path starts with
`templatePath` and is `templatePath/<docdir>/<stem>/index.html`, the
corresponding page directory, or `templatePath/<docdir>/<name>`; nothing is
addressed relative to the output root. -/
theorem renderDoc_mutates_template_tree (cfg : Config) (ext : Ext) (fs : Fs)
    (t path : String) (pl : Bool) (e : Ev)
    (hpath : pyStartswith path "/" = false)
    (hfiles : ∀ f ∈ fs.docFiles (pyJoin fs.cwd path) t,
      pyStartswith f "/" = false)
    (he : e ∈ (renderDoc cfg ext fs t path pl).1) :
    pyStartswith (evPath e) cfg.templatePath = true ∧
    (∃ f ∈ fs.docFiles (pyJoin fs.cwd path) t,
      evPath e = pyJoin (pyJoin cfg.templatePath path) (pyStem f) ∨
      evPath e =
        pyJoin (pyJoin (pyJoin cfg.templatePath path) (pyStem f))
          "index.html" ∨
      evPath e = pyJoin (pyJoin cfg.templatePath path) f) := by
  obtain ⟨f, hfm, hshape⟩ := renderDoc_event_shape cfg ext fs t path pl e he
  have hdest : pyStartswith (pyJoin cfg.templatePath path)
      cfg.templatePath = true :=
    pyStartswith_pyJoin cfg.templatePath path hpath
  have hstem : pyStartswith (pyStem f) "/" = false :=
    pyStem_no_leading_slash f (hfiles f hfm)
  have hpagedir : pyStartswith
      (pyJoin (pyJoin cfg.templatePath path) (pyStem f))
      cfg.templatePath = true :=
    pyStartswith_trans _ _ _
      (pyStartswith_pyJoin (pyJoin cfg.templatePath path) (pyStem f) hstem)
      hdest
  rcases hshape with hsh | hsh | hsh <;> subst hsh
  · exact ⟨hpagedir, f, hfm, Or.inl rfl⟩
  · refine ⟨?_, f, hfm, Or.inr (Or.inl rfl)⟩
    exact pyStartswith_trans _ _ _
      (pyStartswith_pyJoin _ "index.html" (by decide)) hpagedir
  · refine ⟨?_, f, hfm, Or.inr (Or.inr rfl)⟩
    exact pyStartswith_trans _ _ _
      (pyStartswith_pyJoin (pyJoin cfg.templatePath path) f (hfiles f hfm))
      hdest

/-- Witness for C10 at the one-document build of `fsDoc`: the write of
`templates/posts/hello/index.html` lies under the template root
`templates`. -/
theorem renderDoc_mutates_template_tree_witness :
    pyStartswith
      (evPath (Ev.write "templates/posts/hello/index.html"
        (platify "hi" "_posts.html")))
      cfgDoc.templatePath = true ∧
    (∃ f ∈ fsDoc.docFiles (pyJoin fsDoc.cwd "posts") "org",
      evPath (Ev.write "templates/posts/hello/index.html"
        (platify "hi" "_posts.html")) =
        pyJoin (pyJoin cfgDoc.templatePath "posts") (pyStem f) ∨
      evPath (Ev.write "templates/posts/hello/index.html"
        (platify "hi" "_posts.html")) =
        pyJoin (pyJoin (pyJoin cfgDoc.templatePath "posts") (pyStem f))
          "index.html" ∨
      evPath (Ev.write "templates/posts/hello/index.html"
        (platify "hi" "_posts.html")) =
        pyJoin (pyJoin cfgDoc.templatePath "posts") f) :=
  renderDoc_mutates_template_tree cfgDoc ext0 fsDoc "org" "posts" true
    (Ev.write "templates/posts/hello/index.html"
      (platify "hi" "_posts.html"))
    (by decide) (by decide) (by decide)

/-- `renderDocs` produces the same result whatever its `prettyLink`
argument: line 401 forwards the literal `True`. -/
theorem renderDocs_prettyLink_irrelevant (cfg : Config) (ext : Ext) (fs : Fs)
    (t : String) (dirs : List String) (pl : Bool) :
    renderDocs cfg ext fs t dirs pl = renderDocs cfg ext fs t dirs true := by
  induction dirs with
  | nil => rfl
  | cons d ds ih => simp only [renderDocs, ih]

/-- C8, counterexample.  Batch-converting the directory `posts` with
`prettyLink := false` still produces the pretty layout, and it produces it
under the template root: the only write is
`templates/posts/hello/index.html` — not `<basename>.html`, and not under
the output root `build` — and the batch result is identical to the
`prettyLink := true` one. -/
theorem renderDocs_prettyLink_counterexample :
    renderDocs cfgDoc ext0 fsDoc "org" ["posts"] false =
      renderDocs cfgDoc ext0 fsDoc "org" ["posts"] true ∧
    (renderDocs cfgDoc ext0 fsDoc "org" ["posts"] false).1 =
      [Ev.mkdir "templates/posts/hello",
       Ev.write "templates/posts/hello/index.html"
         (platify "hi" "_posts.html")] := by
  exact ⟨by decide, by decide⟩

/-- C8, amended.  For a converted document file `f` of directory `path`,
`renderDoc`'s own `prettyLink` argument selects the layout — the
`<stem>/index.html` write when true, the flat `<f>` write when false, both
under the template root at `templatePath/<path>/…` — but the `prettyLink`
argument of the batch operation `renderDocs` is ignored (the literal `True`
is forwarded), so the batch always produces the pretty layout. -/
theorem renderDoc_destination_layout (cfg : Config) (ext : Ext) (fs : Fs)
    (t : String) (dirs : List String) (pl : Bool) (path f : String)
    (hf : f ∈ fs.docFiles (pyJoin fs.cwd path) t)
    (ht : fs.isfile
      (pyJoin cfg.templatePath ("_" ++ pyBasename path ++ ".html")) = true) :
    renderDocs cfg ext fs t dirs pl = renderDocs cfg ext fs t dirs true ∧
    Ev.write
        (pyJoin (pyJoin (pyJoin cfg.templatePath path) (pyStem f))
          "index.html")
        (platify (ext.pandoc t (fs.text (pyJoin (pyJoin fs.cwd path) f)))
          ("_" ++ pyBasename path ++ ".html"))
      ∈ (renderDoc cfg ext fs t path true).1 ∧
    Ev.write (pyJoin (pyJoin cfg.templatePath path) f)
        (platify (ext.pandoc t (fs.text (pyJoin (pyJoin fs.cwd path) f)))
          ("_" ++ pyBasename path ++ ".html"))
      ∈ (renderDoc cfg ext fs t path false).1 := by
  refine ⟨renderDocs_prettyLink_irrelevant cfg ext fs t dirs pl, ?_, ?_⟩
  · simp only [renderDoc, ht, if_true]
    rw [List.mem_flatMap]
    exact ⟨f, hf, by simp⟩
  · simp only [renderDoc, ht, if_true]
    rw [List.mem_flatMap]
    exact ⟨f, hf, by simp⟩

/-- Witness for the amended C8 on the concrete one-document build. -/
theorem renderDoc_destination_layout_witness :
    renderDocs cfgDoc ext0 fsDoc "org" ["posts"] false =
      renderDocs cfgDoc ext0 fsDoc "org" ["posts"] true ∧
    Ev.write
        (pyJoin (pyJoin (pyJoin cfgDoc.templatePath "posts")
          (pyStem "hello.org")) "index.html")
        (platify (ext0.pandoc "org"
            (fsDoc.text (pyJoin (pyJoin fsDoc.cwd "posts") "hello.org")))
          ("_" ++ pyBasename "posts" ++ ".html"))
      ∈ (renderDoc cfgDoc ext0 fsDoc "org" "posts" true).1 ∧
    Ev.write (pyJoin (pyJoin cfgDoc.templatePath "posts") "hello.org")
        (platify (ext0.pandoc "org"
            (fsDoc.text (pyJoin (pyJoin fsDoc.cwd "posts") "hello.org")))
          ("_" ++ pyBasename "posts" ++ ".html"))
      ∈ (renderDoc cfgDoc ext0 fsDoc "org" "posts" false).1 :=
  renderDoc_destination_layout cfgDoc ext0 fsDoc "org" ["posts"] false
    "posts" "hello.org" (by decide) (by decide)

/-- Replaying a trace none of whose events writes under the template root
leaves the loader's enumeration unchanged and the file contents under the
template root untouched. -/
theorem applyTrace_preserves_template_tree (cfg : Config) (fs : Fs)
    (tr : List Ev)
    (h : ∀ e ∈ tr, evWriteUnder cfg.templatePath e = false) :
    (applyTrace cfg fs tr).templateList = fs.templateList ∧
    (∀ p, pyStartswith p (cfg.templatePath ++ "/") = true →
      (applyTrace cfg fs tr).text p = fs.text p) := by
  induction tr generalizing fs with
  | nil => exact ⟨rfl, fun _ _ => rfl⟩
  | cons e es ih =>
    have he : evWriteUnder cfg.templatePath e = false :=
      h e (List.mem_cons_self e es)
    have hes : ∀ x ∈ es, evWriteUnder cfg.templatePath x = false :=
      fun x hx => h x (List.mem_cons_of_mem e hx)
    have step1 : (applyEv cfg fs e).templateList = fs.templateList := by
      cases e with
      | mkdir p => rfl
      | write p c =>
        simp only [evWriteUnder] at he
        simp [applyEv, addTemplateName, he]
      | dump p c =>
        simp only [evWriteUnder] at he
        simp [applyEv, addTemplateName, he]
      | copy s d =>
        simp only [evWriteUnder] at he
        simp [applyEv, addTemplateName, he]
    have step2 : ∀ p, pyStartswith p (cfg.templatePath ++ "/") = true →
        (applyEv cfg fs e).text p = fs.text p := by
      intro p hp
      cases e with
      | mkdir q => rfl
      | write q c =>
        simp only [evWriteUnder] at he
        have hne : p ≠ q := by
          intro hpq
          subst hpq
          rw [hp] at he
          cases he
        simp [applyEv, hne]
      | dump q c =>
        simp only [evWriteUnder] at he
        have hne : p ≠ q := by
          intro hpq
          subst hpq
          rw [hp] at he
          cases he
        simp [applyEv, hne]
      | copy s q =>
        simp only [evWriteUnder] at he
        have hne : p ≠ q := by
          intro hpq
          subst hpq
          rw [hp] at he
          cases he
        simp [applyEv, hne]
    have hfold : applyTrace cfg fs (e :: es) =
        applyTrace cfg (applyEv cfg fs e) es := rfl
    obtain ⟨ih1, ih2⟩ := ih (applyEv cfg fs e) hes
    rw [hfold]
    exact ⟨ih1.trans step1, fun p hp => (ih2 p hp).trans (step2 p hp)⟩

/-- With no document directories configured, the document stage does
nothing, whatever the snapshot. -/
theorem docStage_no_dirs (cfg : Config) (ext : Ext) (fs : Fs)
    (types : List String) (pl : Bool) (h : cfg.pandocDirs = []) :
    docStage cfg ext fs types pl = ([], none) := by
  induction types with
  | nil => rfl
  | cons t ts ih =>
    simp [docStage, h, renderDocs, ih]

/-- Page rendering depends on the snapshot only through what the template
engine reads. -/
theorem renderTemplates_congr (cfg : Config) (ext : Ext) (fs fs2 : Fs)
    (names : List String)
    (h : ∀ n, ext.jinjaRender fs2.text n = ext.jinjaRender fs.text n) :
    renderTemplates cfg ext fs2 names = renderTemplates cfg ext fs names := by
  have hf : renderTemplate cfg ext fs2 = renderTemplate cfg ext fs :=
    funext (fun n => by simp [renderTemplate, h n])
  simp only [renderTemplates, hf]

/-- The static stage's result does not depend on the snapshot (it dies on
the `buildPath` attribute before reading anything). -/
theorem copyStatic_congr (cfg : Config) (fs fs2 : Fs)
    (paths : List String) :
    copyStatic cfg fs2 paths = copyStatic cfg fs paths := by
  cases paths <;> rfl

/-- A no-document-directory build is determined by the loader's enumeration
and what the template engine reads from the snapshot. -/
theorem render_snapshot_congr (cfg : Config) (ext : Ext) (fs fs2 : Fs)
    (pl : Bool)
    (hNoDocs : cfg.pandocDirs = [])
    (hTL : fs2.templateList = fs.templateList)
    (hdJ : ∀ n, ext.jinjaRender fs2.text n = ext.jinjaRender fs.text n) :
    render cfg ext fs2 pl = render cfg ext fs pl := by
  have htempl : templates cfg fs2 = templates cfg fs := by
    simp only [templates, hTL]
  have hstat : staticFiles cfg fs2 = staticFiles cfg fs := by
    simp only [staticFiles, hTL]
  simp only [render, docStage_no_dirs cfg ext fs2 cfg.pandocTypes pl hNoDocs,
    docStage_no_dirs cfg ext fs cfg.pandocTypes pl hNoDocs,
    Option.isSome_none, Bool.false_eq_true, if_false, htempl, hstat,
    renderTemplates_congr cfg ext fs fs2 (templates cfg fs) hdJ,
    copyStatic_congr cfg fs fs2 (staticFiles cfg fs)]

/-- C9.  Full-build idempotence on an unchanged source tree: rerunning the
full build on the filesystem as the first build left it yields exactly the
same writes.  The claim's hypothesis — the source tree is unchanged between
the two runs — is formalized as (i) the first build's trace writes nothing
under the source/template root (a build with document directories violates
this by design: `renderDoc` writes into the template tree, C10) and hence
(ii) no document directories are configured; the template engine is assumed
deterministic and to read only files under its root. -/
theorem render_idempotent_on_unchanged_source (cfg : Config) (ext : Ext)
    (fs : Fs) (pl : Bool)
    (hNoDocs : cfg.pandocDirs = [])
    (hSrcUnchanged : ∀ e ∈ (render cfg ext fs pl).1,
      evWriteUnder cfg.templatePath e = false)
    (hLocal : ∀ m m2 : String → String,
      (∀ p, pyStartswith p (cfg.templatePath ++ "/") = true → m p = m2 p) →
      ∀ n, ext.jinjaRender m n = ext.jinjaRender m2 n) :
    render cfg ext (applyTrace cfg fs (render cfg ext fs pl).1) pl =
      render cfg ext fs pl := by
  obtain ⟨hTL, hText⟩ :=
    applyTrace_preserves_template_tree cfg fs _ hSrcUnchanged
  exact render_snapshot_congr cfg ext fs _ pl hNoDocs hTL
    (hLocal _ fs.text hText)

/-- Witness for C9: the no-document, no-static single-page build; the
second run over the filesystem left by the first produces the identical
result. -/
theorem render_idempotent_witness :
    render cfg0 ext0 (applyTrace cfg0 fs0 (render cfg0 ext0 fs0 true).1)
      true = render cfg0 ext0 fs0 true :=
  render_idempotent_on_unchanged_source cfg0 ext0 fs0 true rfl (by decide)
    (fun m m2 h n => rfl)

/-- Witness for C7: the template root of `fs0` holds no file, so building
the document directory `posts` aborts with the diagnostic naming
`templates/_posts.html` and writes nothing. -/
theorem renderDoc_missing_template_aborts_witness :
    (fs0.isfile
      (pyJoin cfg0.templatePath ("_" ++ pyBasename "posts" ++ ".html")) = false) ∧
    renderDoc cfg0 ext0 fs0 "org" "posts" true =
      ([], some "No template templates/_posts.html has been found, aborting.") :=
  ⟨by decide,
   renderDoc_missing_template_aborts cfg0 ext0 fs0 "org" "posts" true (by decide)⟩

end Grash
